import Mathlib

/-!
Verification of the B_Guides repository (a Blender VSE/3D-viewport
composition-guides addon) against its natural-language specification.

Python floats are modelled as rationals (`ℚ`) where the code only uses
field arithmetic and comparisons, and as reals (`ℝ`) where trigonometric
functions appear.  Python strings are modelled as `String` (or as
`List Char` where the code splits or joins on characters).  All
definitions are translated from the addon sources (`drawing.py`,
`operators.py`, `properties.py`, `presets.py` of the two generations).
-/

namespace BGuides

/-! ## Cohen–Sutherland line clipping (`drawing.py`, `clip_line_to_rect`) -/

/-- Outcode constant LEFT from `clip_line_to_rect` (`drawing.py` lines 51-56). -/
def LEFT : Nat := 1

/-- Outcode constant RIGHT. -/
def RIGHT : Nat := 2

/-- Outcode constant BOTTOM. -/
def BOTTOM : Nat := 4

/-- Outcode constant TOP. -/
def TOP : Nat := 8

/-- The inner `compute_code` helper of `clip_line_to_rect`:
4-bit region classification of `(x, y)` against the rectangle
`(rect_x, rect_y, rect_width, rect_height)`. -/
def computeCode (rx ry rw rh x y : ℚ) : Nat :=
  let code := 0
  let code := if x < rx then code ||| LEFT
              else if x > rx + rw then code ||| RIGHT else code
  let code := if y < ry then code ||| BOTTOM
              else if y > ry + rh then code ||| TOP else code
  code

/-- One clipping step of the `while True` loop body (the `else` branch):
the endpoint that lies outside (preferring endpoint 1, as
`code_out = code1 if code1 != 0 else code2`) is replaced with its
intersection against the violated boundary, testing the bits in the
source order TOP, BOTTOM, RIGHT, LEFT. -/
def clipStep (rx ry rw rh x1 y1 x2 y2 : ℚ) (code1 code2 : Nat) :
    ℚ × ℚ × ℚ × ℚ :=
  let codeOut := if code1 ≠ 0 then code1 else code2
  let xy : ℚ × ℚ :=
    if codeOut &&& TOP ≠ 0 then
      (x1 + (x2 - x1) * (ry + rh - y1) / (y2 - y1), ry + rh)
    else if codeOut &&& BOTTOM ≠ 0 then
      (x1 + (x2 - x1) * (ry - y1) / (y2 - y1), ry)
    else if codeOut &&& RIGHT ≠ 0 then
      (rx + rw, y1 + (y2 - y1) * (rx + rw - x1) / (x2 - x1))
    else
      (rx, y1 + (y2 - y1) * (rx - x1) / (x2 - x1))
  if codeOut = code1 then (xy.1, xy.2, x2, y2) else (x1, y1, xy.1, xy.2)

/-- The `while True` loop of `clip_line_to_rect`, with explicit fuel.
The Python loop always terminates on the reachable inputs (each
iteration lands the clipped endpoint exactly on a boundary), and the
fuel used at the top level is generous; fuel exhaustion returns `none`
like the fully-outside case. -/
def clipLoop (rx ry rw rh : ℚ) : Nat → ℚ → ℚ → ℚ → ℚ →
    Option ((ℚ × ℚ) × (ℚ × ℚ))
  | 0, _, _, _, _ => none
  | fuel + 1, x1, y1, x2, y2 =>
    let code1 := computeCode rx ry rw rh x1 y1
    let code2 := computeCode rx ry rw rh x2 y2
    if code1 = 0 ∧ code2 = 0 then
      some ((x1, y1), (x2, y2))
    else if code1 &&& code2 ≠ 0 then
      none
    else
      let next := clipStep rx ry rw rh x1 y1 x2 y2 code1 code2
      clipLoop rx ry rw rh fuel next.1 next.2.1 next.2.2.1 next.2.2.2

/-- Entry point `clip_line_to_rect(p1, p2, rect_x, rect_y, rect_width,
rect_height)`; fuel 8 covers every run of the source loop (at most one
clip per rectangle boundary per endpoint). -/
def clip_line_to_rect (p1 p2 : ℚ × ℚ) (rx ry rw rh : ℚ) :
    Option ((ℚ × ℚ) × (ℚ × ℚ)) :=
  clipLoop rx ry rw rh 8 p1.1 p1.2 p2.1 p2.2

/-! ## Position clamping (`properties.py` `CustomGuide`, `operators.py`
modal handlers, `presets.py` load) -/

/-- The stored value of a Blender `FloatProperty` declared with
`min=-1.0, max=1.0` (fields `position_x` / `position_y` of
`CustomGuide`, `properties.py` lines 44-62): assignment clamps into
the declared range. -/
def positionPropSet (v : ℚ) : ℚ := max (-1) (min 1 v)

/-- The drag-modal mutation of a guide position
(`VSE_OT_move_custom_guide.modal`, `operators.py` lines 42-55, and the
identical formula in `VSE_OT_drag_guide_from_ruler`): the computed
normalized value `val` is explicitly clamped with
`max(-1.0, min(1.0, val))` before being assigned to the clamping
property. -/
def modalDragStore (val : ℚ) : ℚ := positionPropSet (max (-1) (min 1 val))

/-- The preset-load mutation of a guide position
(`VSE_OT_load_preset.execute`, `presets.py` lines 232-233): the raw
JSON value is assigned directly to the clamping property. -/
def presetLoadStore (v : ℚ) : ℚ := positionPropSet v

/-! ## Ruler tick interval (`drawing.py`, `draw_rulers_base` lines 1125-1139) -/

/-- The fixed candidate list `possible_intervals`. -/
def possible_intervals : List ℕ :=
  [1, 2, 5, 10, 20, 50, 100, 200, 500, 1000, 2000, 5000, 10000]

/-- The target on-screen spacing in pixels (`target_spacing_px = 80`). -/
def target_spacing_px : ℚ := 80

/-- The interval-selection loop: `major_interval_units = 100`, then the
first candidate whose `interval * pixels_per_unit >= 80` overwrites it
and breaks. -/
def pickIntervalLoop (ppu : ℚ) : List ℕ → ℕ
  | [] => 100
  | i :: rest =>
      if (i : ℚ) * ppu ≥ target_spacing_px then i else pickIntervalLoop ppu rest

/-- `major_interval_units` as computed by `draw_rulers_base`. -/
def majorIntervalUnits (ppu : ℚ) : ℕ := pickIntervalLoop ppu possible_intervals

/-! ## Frame-rectangle derivation (`drawing.py` `get_frame_coordinates` vs
`operators.py` `VSE_OT_move_custom_guide.invoke`) -/

/-- The region's pan/zoom transform: `view2d.view_to_region` maps the
centered logical coordinate system into region pixels affinely. -/
structure View2D where
  zoomX : ℚ
  panX : ℚ
  zoomY : ℚ
  panY : ℚ

/-- Apply `view2d.view_to_region(x, y, clip=False)`. -/
def viewToRegion (v : View2D) (x y : ℚ) : ℚ × ℚ :=
  (v.panX + v.zoomX * x, v.panY + v.zoomY * y)

/-- `get_frame_coordinates` (`drawing.py` lines 11-43), the timeline
rendering entry point's frame rectangle: width is corrected by the
pixel aspect ratio (`adjusted_width = render_width * aspect_x/aspect_y`)
before the centered logical corners are mapped through `view_to_region`;
zero adjusted dimensions fall back to the full region size. -/
def get_frame_coordinates (resX resY aspectX aspectY regionW regionH : ℚ)
    (v : View2D) : ℚ × ℚ × ℚ × ℚ :=
  let pixelAspect := if aspectY ≠ 0 then aspectX / aspectY else 1
  let adjustedW := resX * pixelAspect
  let adjustedH := resY
  if adjustedW = 0 ∨ adjustedH = 0 then (0, 0, regionW, regionH)
  else
    let p1 := viewToRegion v (-adjustedW / 2) (-adjustedH / 2)
    let p2 := viewToRegion v (adjustedW / 2) (adjustedH / 2)
    (p1.1, p1.2, p2.1 - p1.1, p2.2 - p1.2)

/-- The frame rectangle computed at invoke time by
`VSE_OT_move_custom_guide.invoke` (`operators.py` lines 82-98): the raw
render resolution is mapped through `view_to_region` with no
pixel-aspect-ratio correction; zero resolution cancels the operator. -/
def moveGuideInvokeFrame (resX resY : ℚ) (v : View2D) :
    Option (ℚ × ℚ × ℚ × ℚ) :=
  if resX = 0 ∨ resY = 0 then none
  else
    let p1 := viewToRegion v (-resX / 2) (-resY / 2)
    let p2 := viewToRegion v (resX / 2) (resY / 2)
    some (p1.1, p1.2, p2.1 - p1.1, p2.2 - p1.2)

/-- The identity pan/zoom transform (1 region pixel per logical unit,
no pan), a legal `View2D` state. -/
def idView : View2D := ⟨1, 0, 1, 0⟩

/-! ## Diagonal-method geometry: live overlay vs export rasterizer -/

/-- The live GPU overlay's diagonal-method segments
(`drawing.py` lines 973-1003): 4 lines of per-axis extent
`max(frame_width, frame_height) * 2` at the user angle
(`math.radians(diagonal_method_angle)`), mirrored across the 4 frame
corners. -/
noncomputable def diagonalMethodLive (fx fy fw fh angleDeg : ℝ) :
    List ((ℝ × ℝ) × (ℝ × ℝ)) :=
  let angleRad := angleDeg * (Real.pi / 180)
  let maxLen := max fw fh * 2
  let dx := maxLen * Real.cos angleRad
  let dy := maxLen * Real.sin angleRad
  [((fx, fy), (fx + dx, fy + dy)),
   ((fx + fw, fy), (fx + fw - dx, fy + dy)),
   ((fx, fy + fh), (fx + dx, fy + fh - dy)),
   ((fx + fw, fy + fh), (fx + fw - dx, fy + fh - dy))]

/-- The export rasterizer's diagonal-method segments
(`VSE_OT_export_guides_image.execute`, `operators.py` lines 1016-1024):
4 fixed 45-degree lines of per-axis extent `min(width, height)` from
the corners; the user's `diagonal_method_angle` is never read. -/
def diagonalMethodExport (w h : ℝ) : List ((ℝ × ℝ) × (ℝ × ℝ)) :=
  let minDim := min w h
  [((0, 0), (minDim, minDim)),
   ((w, 0), (w - minDim, minDim)),
   ((0, h), (minDim, h - minDim)),
   ((w, h), (w - minDim, h - minDim))]

/-! ## Generation-1 preset persistence (`presets.py`) -/

/-- A JSON scalar/array value as produced by `json.load` for a preset
field. -/
inductive PValue
  | pBool (b : Bool)
  | pInt (n : ℤ)
  | pNum (q : ℚ)
  | pStr (s : String)
  | pArr (l : List ℚ)
deriving DecidableEq

/-- A settings object viewed as its attribute map: `settings.name`
reads `st name`, and `hasattr(settings, name)` is `(st name).isSome`. -/
def SettingsMap : Type := String → Option PValue

/-- Overwrite one attribute (`setattr`). -/
def updateField (st : SettingsMap) (nm : String) (v : PValue) : SettingsMap :=
  fun n => if n = nm then some v else st n

/-- Element-wise assignment loop `for i, v in enumerate(value): prop[i] = v`
on a color/vector attribute: positions of the old vector are overwritten
while new components last (an out-of-range index raises after the
in-range assignments and the exception is caught by the caller, so the
net effect truncates the new list to the old length). -/
def zipOverwrite : List ℚ → List ℚ → List ℚ
  | old, [] => old
  | [], _ => []
  | _ :: os, n :: ns => n :: zipOverwrite os ns

/-- The `PRESET_PROPERTIES` allow-list (`presets.py` lines 15-54),
verbatim and in order. -/
def PRESET_PROPERTIES : List String :=
  ["show_thirds", "show_golden", "show_center", "show_diagonals",
   "show_golden_spiral", "show_golden_triangle", "show_radial_symmetry",
   "show_vanishing_point", "show_circular_thirds", "show_diagonal_reciprocals",
   "show_harmony_triangles", "show_diagonal_method", "show_rulers", "show_grid",
   "show_custom_guides",
   "thirds_color", "golden_color", "center_color", "diagonals_color",
   "golden_spiral_color", "golden_triangle_color", "radial_symmetry_color",
   "vanishing_point_color", "circular_thirds_color", "diagonal_reciprocals_color",
   "harmony_triangles_color", "diagonal_method_color", "ruler_color", "bg_color",
   "grid_color",
   "golden_spiral_flip_h", "golden_spiral_flip_v", "golden_spiral_length",
   "golden_spiral_show_segments", "golden_spiral_fit",
   "golden_triangle_rotation", "golden_triangle_fit",
   "radial_line_count",
   "vanishing_point_x", "vanishing_point_y",
   "circular_thirds_count", "circular_thirds_fit",
   "ruler_units", "line_width", "ruler_size",
   "grid_divisions", "grid_square",
   "hide_guides_outside_frame"]

/-- The attribute names declared on `VSEGuidesSettings`
(Generation-1 `properties.py` lines 91-1167), in declaration order. -/
def vseSettingsAttrs : List String :=
  ["show_thirds", "thirds_color", "show_golden", "golden_color",
   "show_center", "center_color", "show_diagonals", "diagonals_color",
   "show_golden_spiral", "golden_spiral_flip_h", "golden_spiral_flip_v",
   "golden_spiral_length", "golden_spiral_show_segments", "golden_spiral_fit",
   "golden_spiral_color", "show_golden_triangle", "golden_triangle_rotation",
   "golden_triangle_scale", "golden_triangle_count", "golden_triangle_color",
   "show_radial_symmetry", "radial_symmetry_color", "radial_line_count",
   "show_vanishing_point", "vanishing_point_color", "vanishing_point_x",
   "vanishing_point_y", "vanishing_point_lines", "show_vanishing_point_grid",
   "vanishing_point_grid_count", "show_circular_thirds", "circular_thirds_count",
   "circular_thirds_fit", "circular_thirds_color", "show_diagonal_reciprocals",
   "diagonal_reciprocals_color", "show_harmony_triangles",
   "harmony_triangles_color", "harmony_triangles_flip", "show_diagonal_method",
   "diagonal_method_color", "diagonal_method_angle", "show_rulers",
   "ruler_units", "ruler_color", "line_width", "ruler_size", "bg_color",
   "show_grid", "grid_divisions", "grid_square", "grid_color",
   "show_custom_guides", "active_guide_index", "hide_guides_outside_frame",
   "stored_active_guides", "active_preset", "new_preset_name"]

/-- One iteration of the `dict_to_settings` loop body
(`presets.py` lines 117-128): a key is applied only when it is in the
allow-list and the settings object has that attribute; list values
overwrite vector components element-wise, other values are assigned
directly (a per-field type-mismatch exception is caught and the field
skipped; value coercion details do not matter for the frame-effect
claims). -/
def dictToSettingsStep (acc : SettingsMap) (kv : String × PValue) : SettingsMap :=
  if kv.1 ∈ PRESET_PROPERTIES ∧ (acc kv.1).isSome then
    match kv.2 with
    | PValue.pArr l =>
      match acc kv.1 with
      | some (PValue.pArr old) =>
          updateField acc kv.1 (PValue.pArr (zipOverwrite old l))
      | _ => acc
    | v => updateField acc kv.1 v
  else acc

/-- `dict_to_settings(data, settings)`: fold the loop body over the
parsed JSON object's items. -/
def dict_to_settings (data : List (String × PValue)) (st : SettingsMap) :
    SettingsMap :=
  data.foldl dictToSettingsStep st

/-- `settings_to_dict(settings)` (`presets.py` lines 97-112): every
allow-listed name the settings object has becomes a key. -/
def settings_to_dict (st : SettingsMap) : List (String × PValue) :=
  PRESET_PROPERTIES.filterMap fun nm => (st nm).map fun v => (nm, v)

/-- A settings state for the C5 example: `show_thirds` currently true,
`show_center` currently false (only the two attributes needed by the
example are populated). -/
def presetExampleSettings : SettingsMap :=
  fun n =>
    if n = "show_thirds" then some (PValue.pBool true)
    else if n = "show_center" then some (PValue.pBool false) else none

/-- The settings fields named by C10 that exist on `VSEGuidesSettings`
but are absent from the `PRESET_PROPERTIES` allow-list. -/
def untrackedSettingsFields : List String :=
  ["golden_triangle_scale", "golden_triangle_count", "vanishing_point_lines",
   "show_vanishing_point_grid", "vanishing_point_grid_count",
   "harmony_triangles_flip", "diagonal_method_angle"]

/-- A settings state with every `VSEGuidesSettings` attribute present
(all populated with a placeholder value). -/
def vseDefaultSettings : SettingsMap :=
  fun n => if n ∈ vseSettingsAttrs then some (PValue.pBool false) else none

/-! ## Generation-2 custom-guides deserialization (`properties.py` v1.1) -/

/-- A guide line as stored in the per-owner collection. -/
structure GuideLine where
  name : String
  position_x : ℚ
  position_y : ℚ
  rotation : ℚ
  orientation : String
  color : List ℚ
deriving DecidableEq

/-- One parsed item of the serialized guides array; `none` fields are
absent keys handled by `item.get(key, default)`. -/
structure GuideRecord where
  name : Option String
  position_x : Option ℚ
  position_y : Option ℚ
  rotation : Option ℚ
  orientation : Option String
  color : Option (List ℚ)

/-- Repopulating one collection item from a parsed record
(`deserialize_guides` loop body, v1.1 `properties.py` lines 83-90),
with the `CustomGuide` property defaults and range clamps. -/
def guideOfRecord (r : GuideRecord) : GuideLine :=
  { name := r.name.getD "Guide"
    position_x := positionPropSet (r.position_x.getD 0)
    position_y := positionPropSet (r.position_y.getD 0)
    rotation := r.rotation.getD 0
    orientation := r.orientation.getD "HORIZONTAL"
    color := (r.color.getD [0, 2/5, 1, 1/2]).map fun q => max 0 (min 1 q) }

/-- `deserialize_guides(guides_collection, value)` (v1.1 `properties.py`
lines 74-90): an empty string returns immediately; `json.loads` failure
(modelled by the abstract fallible parser `parse`) returns immediately;
only a successful parse clears and repopulates the collection. -/
def deserialize_guides (parse : String → Option (List GuideRecord))
    (col : List GuideLine) (value : String) : List GuideLine :=
  if value = "" then col
  else
    match parse value with
    | none => col
    | some data => data.map guideOfRecord

/-! ## Golden-spiral generation loop (`drawing.py` lines 586-662, and the
identical loop in the export rasterizer) -/

/-- The golden-ratio constant `phi = 1.61803398875` used by the spiral
generator, as an exact rational. -/
def phi : ℚ := 161803398875 / 100000000000

/-- The fixed working-rectangle height `gen_h = 1000.0`. -/
def gen_h : ℚ := 1000

/-- The fixed working-rectangle width `gen_w = gen_h * phi`. -/
def gen_w : ℚ := gen_h * phi

/-- The working-rectangle state `(lx, ly, lw, lh)` of the spiral loop. -/
structure SpState where
  lx : ℚ
  ly : ℚ
  lw : ℚ
  lh : ℚ
deriving DecidableEq

/-- One 90-degree arc produced by a loop iteration: its center, its
radius (the carved square's side), its phase in the 4-phase rotation
(0 = left with angles pi to pi/2, 1 = top with pi/2 to 0, 2 = right
with 0 to -pi/2, 3 = bottom with -pi/2 to -pi), and its segment count
(the source's `segs = 32`; the iteration samples `segs + 1` points of
the arc). -/
structure SpiralArc where
  centerX : ℚ
  centerY : ℚ
  radius : ℚ
  phase : ℕ
  segs : ℕ
deriving DecidableEq

/-- One iteration body of the spiral loop for `cycle = idx % 4`:
produces the arc descriptor, the carve-boundary segment appended to
`rect_lines` when `golden_spiral_show_segments` is on, and the updated
working rectangle, mirroring the four branches of the source. -/
def spiralCarve (cycle : ℕ) (st : SpState) :
    SpiralArc × ((ℚ × ℚ) × (ℚ × ℚ)) × SpState :=
  let mindim := min st.lw st.lh
  let radius := mindim
  if cycle = 0 then
    (⟨st.lx + radius, st.ly, radius, 0, 32⟩,
     ((st.lx + radius, st.ly), (st.lx + radius, st.ly + st.lh)),
     ⟨st.lx + radius, st.ly, st.lw - radius, st.lh⟩)
  else if cycle = 1 then
    (⟨st.lx, st.ly + st.lh - radius, radius, 1, 32⟩,
     ((st.lx, st.ly + st.lh - radius), (st.lx + st.lw, st.ly + st.lh - radius)),
     ⟨st.lx, st.ly, st.lw, st.lh - radius⟩)
  else if cycle = 2 then
    (⟨st.lx + st.lw - radius, st.ly + st.lh, radius, 2, 32⟩,
     ((st.lx + st.lw - radius, st.ly), (st.lx + st.lw - radius, st.ly + st.lh)),
     ⟨st.lx, st.ly, st.lw - radius, st.lh⟩)
  else
    (⟨st.lx + st.lw, st.ly + radius, radius, 3, 32⟩,
     ((st.lx, st.ly + radius), (st.lx + st.lw, st.ly + radius)),
     ⟨st.lx, st.ly + radius, st.lw, st.lh - radius⟩)

/-- The `for idx in range(max_iter)` loop with its
`if lw < 1.0 or lh < 1.0: break` guard: accumulates the arcs and (when
`show_segments` is on) the boundary segments. -/
def spiralGo (showSegs : Bool) : ℕ → ℕ → SpState →
    List SpiralArc × List ((ℚ × ℚ) × (ℚ × ℚ))
  | _, 0, _ => ([], [])
  | idx, fuel + 1, st =>
    if st.lw < 1 ∨ st.lh < 1 then ([], [])
    else
      let c := spiralCarve (idx % 4) st
      let rest := spiralGo showSegs (idx + 1) fuel c.2.2
      (c.1 :: rest.1, if showSegs then c.2.1 :: rest.2 else rest.2)

/-- The initial working rectangle `lx, ly = 0, 0; lw, lh = gen_w, gen_h`. -/
def spiralStart : SpState := ⟨0, 0, gen_w, gen_h⟩

/-- The whole generation loop for `max_iter = golden_spiral_length = L`. -/
def spiralRun (L : ℕ) (showSegs : Bool) :
    List SpiralArc × List ((ℚ × ℚ) × (ℚ × ℚ)) :=
  spiralGo showSegs 0 L spiralStart

/-- The working-rectangle state after `k` carves starting at loop index
`idx` (ignoring the break guard). -/
def carveIter : ℕ → ℕ → SpState → SpState
  | 0, _, st => st
  | k + 1, idx, st => carveIter k (idx + 1) (spiralCarve (idx % 4) st).2.2

/-- The working-rectangle state seen at the top of loop iteration `n`. -/
def spiralStateSeq (n : ℕ) : SpState := carveIter n 0 spiralStart

/-! ## Toggle-all operator (`operators.py`, `VSE_OT_toggle_all_guides`,
lines 386-456) -/

/-- The 15 visibility-toggle attributes listed in `guide_props`. -/
inductive GProp
  | thirds | golden | center | diagonals | rulers | grid | customGuides
  | goldenSpiral | goldenTriangle | circularThirds | radialSymmetry
  | vanishingPoint | diagonalReciprocals | harmonyTriangles | diagonalMethod
deriving DecidableEq

/-- The attribute name of each toggle, as the character list of the
Python string. -/
def gpropName : GProp → List Char
  | .thirds => "show_thirds".toList
  | .golden => "show_golden".toList
  | .center => "show_center".toList
  | .diagonals => "show_diagonals".toList
  | .rulers => "show_rulers".toList
  | .grid => "show_grid".toList
  | .customGuides => "show_custom_guides".toList
  | .goldenSpiral => "show_golden_spiral".toList
  | .goldenTriangle => "show_golden_triangle".toList
  | .circularThirds => "show_circular_thirds".toList
  | .radialSymmetry => "show_radial_symmetry".toList
  | .vanishingPoint => "show_vanishing_point".toList
  | .diagonalReciprocals => "show_diagonal_reciprocals".toList
  | .harmonyTriangles => "show_harmony_triangles".toList
  | .diagonalMethod => "show_diagonal_method".toList

/-- The `guide_props` list of `VSE_OT_toggle_all_guides.execute`, in
source order. -/
def guide_props : List GProp :=
  [.thirds, .golden, .center, .diagonals, .rulers, .grid, .customGuides,
   .goldenSpiral, .goldenTriangle, .circularThirds, .radialSymmetry,
   .vanishingPoint, .diagonalReciprocals, .harmonyTriangles, .diagonalMethod]

/-- The visibility-toggle slice of the settings state, plus the
`stored_active_guides` scratch string (as a character list). -/
structure ToggleState where
  toggles : GProp → Bool
  stored : List Char

/-- `setattr(settings, prop, b)` for a toggle attribute. -/
def setToggle (s : ToggleState) (p : GProp) (b : Bool) : ToggleState :=
  { s with toggles := fun q => if q = p then b else s.toggles q }

/-- Python's `",".join(names)` on character lists. -/
def commaJoin : List (List Char) → List Char
  | [] => []
  | [n] => n
  | n :: rest => n ++ ',' :: commaJoin rest

/-- Python's `text.split(",")` on character lists (an empty text gives
one empty field, like Python). -/
def commaSplit : List Char → List (List Char)
  | [] => [[]]
  | c :: rest =>
    if c = ',' then [] :: commaSplit rest
    else
      match commaSplit rest with
      | [] => [[c]]
      | h :: t => (c :: h) :: t

/-- The `hasattr(settings, prop)` lookup of the restore loop, resolved
to the matching toggle.  The recorded names used by the round-trip
claim are always drawn from `guide_props` (the scratch string is only
ever written by the operator itself as a comma-join of toggle names),
so the lookup is modelled over the toggle attributes. -/
def findGProp (nm : List Char) : Option GProp :=
  guide_props.find? fun p => gpropName p = nm

/-- The toggling-off loop: `for prop in guide_props: if getattr:
append(prop); setattr(prop, False)` — returns the collected names and
the resulting state. -/
def collectOff : List GProp → ToggleState → List (List Char) × ToggleState
  | [], s => ([], s)
  | p :: rest, s =>
    if s.toggles p then
      let r := collectOff rest (setToggle s p false)
      (gpropName p :: r.1, r.2)
    else collectOff rest s

/-- The restore loop: `for prop in saved_guides: if hasattr:
setattr(prop, True)`. -/
def restoreLoop : List (List Char) → ToggleState → ToggleState
  | [], s => s
  | nm :: rest, s =>
    match findGProp nm with
    | some p => restoreLoop rest (setToggle s p true)
    | none => restoreLoop rest s

/-- The fallback `show_thirds = True; show_custom_guides = True`. -/
def enableDefaults (s : ToggleState) : ToggleState :=
  setToggle (setToggle s .thirds true) .customGuides true

/-- `VSE_OT_toggle_all_guides.execute`: if any toggle is on, record the
comma-joined on-set into the scratch string and turn all off; else
restore from the scratch string (counting the names that validate via
`hasattr`, with the defaults fallback when the string is empty or no
name validates). -/
def toggle_all_guides (s : ToggleState) : ToggleState :=
  if guide_props.any s.toggles then
    let r := collectOff guide_props s
    { r.2 with stored := commaJoin r.1 }
  else
    if s.stored ≠ [] then
      let saved := commaSplit s.stored
      let s1 := restoreLoop saved s
      let count := (saved.filter fun nm => (findGProp nm).isSome).length
      if count = 0 then enableDefaults s1 else s1
    else enableDefaults s

/-- The settings state of the spec's toggle-all example: exactly
`show_thirds` and `show_grid` on, scratch string empty. -/
def exampleToggles : ToggleState :=
  ⟨fun p => decide (p = GProp.thirds ∨ p = GProp.grid), []⟩

/-! ## Helper lemmas: preset frame effects -/

/-- Helper: one loop iteration of `dict_to_settings` never changes an
attribute other than the iteration's own key. -/
theorem dictToSettingsStep_ne (acc : SettingsMap) (kv : String × PValue)
    (nm : String) (h : kv.1 ≠ nm) : dictToSettingsStep acc kv nm = acc nm := by
  have hne : nm ≠ kv.1 := fun e => h e.symm
  obtain ⟨k, v⟩ := kv
  simp only at hne
  unfold dictToSettingsStep
  by_cases hc : k ∈ PRESET_PROPERTIES ∧ ((acc k).isSome : Prop)
  · rw [if_pos hc]
    cases v with
    | pArr l =>
      cases ha : acc k with
      | none => simp [ha]
      | some w => cases w <;> simp [ha, updateField, hne]
    | pBool b => simp [updateField, hne]
    | pInt n => simp [updateField, hne]
    | pNum q => simp [updateField, hne]
    | pStr t => simp [updateField, hne]
  · rw [if_neg hc]

/-- Helper: one loop iteration never changes an attribute whose name is
outside the allow-list. -/
theorem dictToSettingsStep_untracked (acc : SettingsMap) (kv : String × PValue)
    (nm : String) (hnm : nm ∉ PRESET_PROPERTIES) :
    dictToSettingsStep acc kv nm = acc nm := by
  by_cases hkv : kv.1 = nm
  · unfold dictToSettingsStep
    rw [if_neg fun hand => hnm (hkv ▸ hand.1)]
  · exact dictToSettingsStep_ne acc kv nm hkv

/-- Helper: a key that never occurs in the loaded data is never
mutated by `dict_to_settings`. -/
theorem dict_to_settings_absent_key (nm : String) :
    ∀ (data : List (String × PValue)) (st : SettingsMap),
      (∀ kv ∈ data, kv.1 ≠ nm) → dict_to_settings data st nm = st nm
  | [], _, _ => rfl
  | kv :: rest, st, h => by
    have hkv : kv.1 ≠ nm := h kv (List.mem_cons_self kv rest)
    calc dict_to_settings (kv :: rest) st nm
        = dict_to_settings rest (dictToSettingsStep st kv) nm := rfl
      _ = dictToSettingsStep st kv nm :=
          dict_to_settings_absent_key nm rest _
            (fun x hx => h x (List.mem_cons_of_mem kv hx))
      _ = st nm := dictToSettingsStep_ne st kv nm hkv

/-- Helper: a field outside the `PRESET_PROPERTIES` allow-list is never
mutated by `dict_to_settings`, whatever the loaded data contains. -/
theorem dict_to_settings_untracked_key (nm : String) (hnm : nm ∉ PRESET_PROPERTIES) :
    ∀ (data : List (String × PValue)) (st : SettingsMap),
      dict_to_settings data st nm = st nm
  | [], _ => rfl
  | kv :: rest, st => by
    calc dict_to_settings (kv :: rest) st nm
        = dict_to_settings rest (dictToSettingsStep st kv) nm := rfl
      _ = dictToSettingsStep st kv nm :=
          dict_to_settings_untracked_key nm hnm rest _
      _ = st nm := dictToSettingsStep_untracked st kv nm hnm

/-! ## Helper lemmas: ruler interval selection -/

/-- Helper: when some list element reaches the target spacing, the
selection loop returns the first (and, on a sorted list, the smallest)
such element. -/
theorem pickIntervalLoop_min (ppu : ℚ) :
    ∀ l : List ℕ, l.Sorted (· ≤ ·) →
      (∃ i ∈ l, target_spacing_px ≤ (i : ℚ) * ppu) →
      pickIntervalLoop ppu l ∈ l ∧
      target_spacing_px ≤ (pickIntervalLoop ppu l : ℚ) * ppu ∧
      ∀ j ∈ l, target_spacing_px ≤ (j : ℚ) * ppu → pickIntervalLoop ppu l ≤ j := by
  intro l
  induction l with
  | nil => rintro _ ⟨i, hi, _⟩; simp at hi
  | cons a rest ih =>
    intro hsort hex
    rw [List.sorted_cons] at hsort
    by_cases ha : target_spacing_px ≤ (a : ℚ) * ppu
    · refine ⟨by simp [pickIntervalLoop, ha], by simpa [pickIntervalLoop, ha], ?_⟩
      intro j hj _
      rcases List.mem_cons.mp hj with rfl | hj
      · simp [pickIntervalLoop, ha]
      · simpa [pickIntervalLoop, ha] using hsort.1 j hj
    · have hex2 : ∃ i ∈ rest, target_spacing_px ≤ (i : ℚ) * ppu := by
        rcases hex with ⟨i, hi, hqi⟩
        rcases List.mem_cons.mp hi with rfl | hi
        · exact absurd hqi ha
        · exact ⟨i, hi, hqi⟩
      obtain ⟨hmem, hq, hmin⟩ := ih hsort.2 hex2
      refine ⟨by simp [pickIntervalLoop, ha, hmem],
        by simpa [pickIntervalLoop, ha] using hq, ?_⟩
      intro j hj hqj
      rcases List.mem_cons.mp hj with rfl | hj
      · exact absurd hqj ha
      · simpa [pickIntervalLoop, ha] using hmin j hj hqj

/-- Helper: when no list element reaches the target spacing, the loop
finishes without breaking and the pre-loop default 100 is kept. -/
theorem pickIntervalLoop_default (ppu : ℚ) :
    ∀ l : List ℕ, (∀ i ∈ l, ¬ target_spacing_px ≤ (i : ℚ) * ppu) →
      pickIntervalLoop ppu l = 100 := by
  intro l
  induction l with
  | nil => intro _; rfl
  | cons a rest ih =>
    intro h
    have ha := h a (List.mem_cons_self a rest)
    simp only [pickIntervalLoop, if_neg ha]
    exact ih fun i hi => h i (List.mem_cons_of_mem a hi)

/-! ## Helper lemmas: golden-spiral loop -/

/-- Helper: every branch of the loop body samples `segs = 32`. -/
theorem spiralCarve_segs (c : ℕ) (st : SpState) : (spiralCarve c st).1.segs = 32 := by
  unfold spiralCarve
  split
  · rfl
  · split
    · rfl
    · split
      · rfl
      · rfl

/-- Helper: for a cycle value below 4 the branch taken matches the
cycle, so the arc's phase is the cycle value. -/
theorem spiralCarve_phase (c : ℕ) (hc : c < 4) (st : SpState) :
    (spiralCarve c st).1.phase = c := by
  interval_cases c <;> simp [spiralCarve]

/-- Helper: the loop performs at most `max_iter` iterations. -/
theorem spiralGo_length_le (showSegs : Bool) :
    ∀ (fuel idx : ℕ) (st : SpState),
      (spiralGo showSegs idx fuel st).1.length ≤ fuel
  | 0, _, _ => Nat.le_refl 0
  | fuel + 1, idx, st => by
    by_cases hbad : st.lw < 1 ∨ st.lh < 1
    · simp [spiralGo, hbad]
    · simp only [spiralGo, if_neg hbad, List.length_cons]
      exact Nat.succ_le_succ (spiralGo_length_le showSegs fuel (idx + 1) _)

/-- Helper: every completed iteration starts from a working rectangle
whose dimensions are both at least 1. -/
theorem spiralGo_good (showSegs : Bool) :
    ∀ (fuel idx : ℕ) (st : SpState) (k : ℕ),
      k < (spiralGo showSegs idx fuel st).1.length →
      ¬ ((carveIter k idx st).lw < 1 ∨ (carveIter k idx st).lh < 1)
  | 0, idx, st, k => by simp [spiralGo]
  | fuel + 1, idx, st, k => by
    by_cases hbad : st.lw < 1 ∨ st.lh < 1
    · simp [spiralGo, hbad]
    · simp only [spiralGo, if_neg hbad, List.length_cons]
      intro hk
      cases k with
      | zero => simpa [carveIter] using hbad
      | succ k1 =>
        have h2 := spiralGo_good showSegs fuel (idx + 1)
          (spiralCarve (idx % 4) st).2.2 k1 (Nat.lt_of_succ_lt_succ hk)
        simpa [carveIter] using h2

/-- Helper: when the loop stops before exhausting `max_iter`, the state
at the stopping iteration violates the size guard. -/
theorem spiralGo_stop (showSegs : Bool) :
    ∀ (fuel idx : ℕ) (st : SpState),
      (spiralGo showSegs idx fuel st).1.length < fuel →
      ((carveIter (spiralGo showSegs idx fuel st).1.length idx st).lw < 1 ∨
        (carveIter (spiralGo showSegs idx fuel st).1.length idx st).lh < 1)
  | 0, idx, st => by simp [spiralGo]
  | fuel + 1, idx, st => by
    by_cases hbad : st.lw < 1 ∨ st.lh < 1
    · simpa [spiralGo, hbad, carveIter] using hbad
    · simp only [spiralGo, if_neg hbad, List.length_cons]
      intro hk
      have h2 := spiralGo_stop showSegs fuel (idx + 1)
        (spiralCarve (idx % 4) st).2.2 (Nat.lt_of_succ_lt_succ hk)
      simpa [carveIter] using h2

/-- Helper: every produced arc has 32 segments. -/
theorem spiralGo_segs (showSegs : Bool) :
    ∀ (fuel idx : ℕ) (st : SpState),
      ∀ a ∈ (spiralGo showSegs idx fuel st).1, a.segs = 32
  | 0, idx, st => by simp [spiralGo]
  | fuel + 1, idx, st => by
    by_cases hbad : st.lw < 1 ∨ st.lh < 1
    · simp [spiralGo, hbad]
    · simp only [spiralGo, if_neg hbad]
      intro a ha
      rcases List.mem_cons.mp ha with rfl | ha
      · exact spiralCarve_segs _ _
      · exact spiralGo_segs showSegs fuel (idx + 1) _ a ha

/-- Helper: the arcs follow the 4-phase rotation `(idx + i) % 4`. -/
theorem spiralGo_phases (showSegs : Bool) :
    ∀ (fuel idx : ℕ) (st : SpState),
      (spiralGo showSegs idx fuel st).1.map SpiralArc.phase =
        (List.range (spiralGo showSegs idx fuel st).1.length).map
          (fun i => (idx + i) % 4)
  | 0, idx, st => by simp [spiralGo]
  | fuel + 1, idx, st => by
    by_cases hbad : st.lw < 1 ∨ st.lh < 1
    · simp [spiralGo, hbad]
    · simp only [spiralGo, if_neg hbad, List.map_cons, List.length_cons,
        List.range_succ_eq_map, List.map_map]
      congr 1
      · rw [spiralCarve_phase (idx % 4) (Nat.mod_lt idx (by norm_num)) st]
        omega
      · rw [spiralGo_phases showSegs fuel (idx + 1) (spiralCarve (idx % 4) st).2.2]
        apply List.map_congr_left
        intro i _
        simp only [Function.comp]
        congr 1
        omega

/-- Helper: one boundary segment per completed iteration when
`show_segments` is on, none otherwise. -/
theorem spiralGo_rects (showSegs : Bool) :
    ∀ (fuel idx : ℕ) (st : SpState),
      (spiralGo showSegs idx fuel st).2.length =
        if showSegs then (spiralGo showSegs idx fuel st).1.length else 0
  | 0, _, _ => by cases showSegs <;> simp [spiralGo]
  | fuel + 1, idx, st => by
    by_cases hbad : st.lw < 1 ∨ st.lh < 1
    · cases showSegs <;> simp [spiralGo, hbad]
    · have h2 := spiralGo_rects showSegs fuel (idx + 1) (spiralCarve (idx % 4) st).2.2
      cases showSegs <;>
        simp only [spiralGo, if_neg hbad, List.length_cons, if_true, if_false,
          Bool.false_eq_true, List.length_cons] <;>
        simp [h2]

/-! ## Helper lemmas: toggle-all operator -/

/-- Helper: every toggle is listed in `guide_props`. -/
theorem gprop_mem (p : GProp) : p ∈ guide_props := by cases p <;> decide

/-- Helper: `guide_props` lists each toggle once. -/
theorem gprop_nodup : guide_props.Nodup := by decide

/-- Helper: no toggle attribute name contains a comma. -/
theorem gprop_no_comma (p : GProp) : ',' ∉ gpropName p := by cases p <;> decide

/-- Helper: no toggle attribute name is empty. -/
theorem gprop_nonempty (p : GProp) : gpropName p ≠ [] := by cases p <;> decide

/-- Helper: looking up a toggle's own name finds that toggle. -/
theorem findGProp_name (p : GProp) : findGProp (gpropName p) = some p := by
  cases p <;> decide

/-- Helper: splitting a comma-free text yields the single field. -/
theorem commaSplit_no_comma : ∀ n : List Char, ',' ∉ n → commaSplit n = [n]
  | [], _ => rfl
  | c :: rest, h => by
    have hc : c ≠ ',' := fun e => h (e ▸ List.mem_cons_self c rest)
    have hr := commaSplit_no_comma rest fun hm => h (List.mem_cons_of_mem c hm)
    simp only [commaSplit, if_neg hc, hr]

/-- Helper: splitting past a comma-free first field peels it off. -/
theorem commaSplit_append : ∀ (n tail : List Char), ',' ∉ n →
    commaSplit (n ++ ',' :: tail) = n :: commaSplit tail
  | [], tail, _ => by simp [commaSplit]
  | c :: rest, tail, h => by
    have hc : c ≠ ',' := fun e => h (e ▸ List.mem_cons_self c rest)
    have hr := commaSplit_append rest tail fun hm => h (List.mem_cons_of_mem c hm)
    simp only [List.cons_append, commaSplit, if_neg hc]
    rw [show rest.append (',' :: tail) = rest ++ ',' :: tail from rfl, hr]

/-- Helper: splitting a comma-join of comma-free fields recovers the
fields exactly. -/
theorem commaSplit_commaJoin : ∀ ns : List (List Char), ns ≠ [] →
    (∀ n ∈ ns, ',' ∉ n) → commaSplit (commaJoin ns) = ns
  | [], h, _ => absurd rfl h
  | [n], _, h => by
    simp only [commaJoin]
    exact commaSplit_no_comma n (h n (List.mem_cons_self n []))
  | n :: m :: rest, _, h => by
    have h1 : ',' ∉ n := h n (List.mem_cons_self n (m :: rest))
    have h2 := commaSplit_commaJoin (m :: rest) (by simp)
      fun x hx => h x (List.mem_cons_of_mem n hx)
    simp only [commaJoin, commaSplit_append n _ h1, h2]

/-- Helper: after the toggling-off loop over a list, exactly the listed
toggles are off and the rest keep their values. -/
theorem collectOff_toggles : ∀ (l : List GProp) (s : ToggleState) (q : GProp),
    (collectOff l s).2.toggles q = if q ∈ l then false else s.toggles q
  | [], s, q => by simp [collectOff]
  | p :: rest, s, q => by
    by_cases hp : s.toggles p = true
    · simp only [collectOff, if_pos hp]
      rw [collectOff_toggles rest (setToggle s p false) q]
      by_cases hq : q ∈ rest
      · simp [hq]
      · by_cases hqp : q = p
        · subst hqp
          simp [hq, setToggle]
        · simp [hq, hqp, setToggle]
    · simp only [collectOff, if_neg hp]
      rw [collectOff_toggles rest s q]
      by_cases hq : q ∈ rest
      · simp [hq]
      · by_cases hqp : q = p
        · subst hqp
          simp only [Bool.not_eq_true] at hp
          simp [hq, hp]
        · simp [hq, hqp]

/-- Helper: the toggling-off loop collects the names of exactly the
toggles that were on, in list order. -/
theorem collectOff_names : ∀ (l : List GProp) (s : ToggleState), l.Nodup →
    (collectOff l s).1 = (l.filter fun p => s.toggles p).map gpropName
  | [], _, _ => rfl
  | p :: rest, s, hnd => by
    obtain ⟨hpnotin, hndrest⟩ := List.nodup_cons.mp hnd
    by_cases hp : s.toggles p = true
    · simp only [collectOff, if_pos hp, List.filter_cons_of_pos hp, List.map_cons]
      congr 1
      rw [collectOff_names rest (setToggle s p false) hndrest]
      congr 1
      apply List.filter_congr
      intro x hx
      have hxp : x ≠ p := fun e => hpnotin (e ▸ hx)
      simp [setToggle, hxp]
    · have hp2 : ¬ (s.toggles p = true) := hp
      simp only [collectOff, if_neg hp, List.filter_cons_of_neg hp2]
      exact collectOff_names rest s hndrest

/-- Helper: after the restore loop, a toggle is on exactly when it was
on before or some restored name resolves to it. -/
theorem restoreLoop_toggles : ∀ (L : List (List Char)) (s : ToggleState) (q : GProp),
    (restoreLoop L s).toggles q = true ↔
      (s.toggles q = true ∨ ∃ nm ∈ L, findGProp nm = some q)
  | [], s, q => by simp [restoreLoop]
  | nm :: rest, s, q => by
    cases hf : findGProp nm with
    | none =>
      simp only [restoreLoop, hf]
      rw [restoreLoop_toggles rest s q]
      constructor
      · rintro (h | ⟨x, hx, hfx⟩)
        · exact Or.inl h
        · exact Or.inr ⟨x, List.mem_cons_of_mem nm hx, hfx⟩
      · rintro (h | ⟨x, hx, hfx⟩)
        · exact Or.inl h
        · rcases List.mem_cons.mp hx with rfl | hx
          · rw [hf] at hfx
            exact absurd hfx (by simp)
          · exact Or.inr ⟨x, hx, hfx⟩
    | some p =>
      simp only [restoreLoop, hf]
      rw [restoreLoop_toggles rest (setToggle s p true) q]
      by_cases hq : q = p
      · subst hq
        simp only [setToggle, if_pos rfl]
        constructor
        · intro _
          exact Or.inr ⟨nm, List.mem_cons_self nm rest, hf⟩
        · intro _
          exact Or.inl (by simp)
      · have hst : (setToggle s p true).toggles q = s.toggles q := by
          simp [setToggle, hq]
        rw [hst]
        constructor
        · rintro (h | ⟨x, hx, hfx⟩)
          · exact Or.inl h
          · exact Or.inr ⟨x, List.mem_cons_of_mem nm hx, hfx⟩
        · rintro (h | ⟨x, hx, hfx⟩)
          · exact Or.inl h
          · rcases List.mem_cons.mp hx with rfl | hx
            · rw [hf] at hfx
              have hpq : p = q := by injection hfx
              exact absurd hpq.symm hq
            · exact Or.inr ⟨x, hx, hfx⟩

/-! ## Theorems for C1: Cohen–Sutherland clipping -/

/-- C1: `clip_line_to_rect` returns the segment unchanged when both
endpoints lie inside the rectangle (outcode 0); returns `none` when the
endpoints share an outside half-plane bit; and on the spec's concrete
examples against frame `(0,0,100,100)`: `(10,10)-(90,90)` clips to
itself, `(-50,50)-(150,50)` clips to `(0,50)-(100,50)`, and
`(-10,-10)-(-5,-5)` yields no output. -/
theorem clip_line_to_rect_spec :
    (∀ (p1 p2 : ℚ × ℚ) (rx ry rw rh : ℚ),
      computeCode rx ry rw rh p1.1 p1.2 = 0 →
      computeCode rx ry rw rh p2.1 p2.2 = 0 →
      clip_line_to_rect p1 p2 rx ry rw rh = some (p1, p2)) ∧
    (∀ (p1 p2 : ℚ × ℚ) (rx ry rw rh : ℚ),
      computeCode rx ry rw rh p1.1 p1.2 &&& computeCode rx ry rw rh p2.1 p2.2 ≠ 0 →
      clip_line_to_rect p1 p2 rx ry rw rh = none) ∧
    clip_line_to_rect (10, 10) (90, 90) 0 0 100 100 = some ((10, 10), (90, 90)) ∧
    clip_line_to_rect (-50, 50) (150, 50) 0 0 100 100 = some ((0, 50), (100, 50)) ∧
    clip_line_to_rect (-10, -10) (-5, -5) 0 0 100 100 = none := by
  refine ⟨?_, ?_, ?_, ?_, ?_⟩
  · intro p1 p2 rx ry rw rh h1 h2
    simp [clip_line_to_rect, clipLoop, h1, h2]
  · intro p1 p2 rx ry rw rh h
    have h1 : ¬ (computeCode rx ry rw rh p1.1 p1.2 = 0 ∧
        computeCode rx ry rw rh p2.1 p2.2 = 0) := by
      rintro ⟨a, b⟩
      simp [a, b] at h
    simp [clip_line_to_rect, clipLoop, h1, h]
  · simp +decide [clip_line_to_rect, clipLoop, computeCode, clipStep, LEFT, RIGHT, BOTTOM, TOP]
  · simp +decide [clip_line_to_rect, clipLoop, computeCode, clipStep, LEFT, RIGHT, BOTTOM, TOP]
  · simp +decide [clip_line_to_rect, clipLoop, computeCode, clipStep, LEFT, RIGHT, BOTTOM, TOP]

/-- Witness for C1: the both-endpoints-inside case and the shared-region
case of `clip_line_to_rect_spec`, instantiated at concrete inputs. -/
theorem clip_line_to_rect_spec_witness :
    clip_line_to_rect (10, 10) (90, 90) 0 0 100 100 = some ((10, 10), (90, 90)) ∧
    clip_line_to_rect (-10, -10) (-5, -5) 0 0 100 100 = none :=
  ⟨clip_line_to_rect_spec.1 (10, 10) (90, 90) 0 0 100 100
      (by simp +decide [computeCode, LEFT, RIGHT, BOTTOM, TOP])
      (by simp +decide [computeCode, LEFT, RIGHT, BOTTOM, TOP]),
    clip_line_to_rect_spec.2.1 (-10, -10) (-5, -5) 0 0 100 100
      (by simp +decide [computeCode, LEFT, RIGHT, BOTTOM, TOP])⟩

/-! ## Theorem for C2: position clamping -/

/-- C2: every mutator of a guide position (`position_x` / `position_y`)
with input value `v` stores exactly `max(-1, min(1, v))`, and the stored
value always lies in `[-1, 1]`: the modal drag handlers clamp explicitly
and assign to the clamping `FloatProperty`, and preset load assigns the
raw value to the clamping `FloatProperty`. -/
theorem position_clamp_spec (v : ℚ) :
    modalDragStore v = max (-1) (min 1 v) ∧
    presetLoadStore v = max (-1) (min 1 v) ∧
    (-1 ≤ modalDragStore v ∧ modalDragStore v ≤ 1) ∧
    (-1 ≤ presetLoadStore v ∧ presetLoadStore v ≤ 1) := by
  have hle : max (-1 : ℚ) (min 1 v) ≤ 1 :=
    max_le (by norm_num) (min_le_left _ _)
  have hidem : modalDragStore v = max (-1) (min 1 v) := by
    unfold modalDragStore positionPropSet
    rw [min_eq_right hle, ← max_assoc, max_self]
  refine ⟨hidem, rfl, ?_, ?_⟩
  · exact ⟨hidem ▸ le_max_left _ _, hidem ▸ hle⟩
  · exact ⟨le_max_left _ _, max_le (by norm_num) (min_le_left _ _)⟩

/-! ## Theorems for C3: golden-spiral generation -/

/-- C3: for every `golden_spiral_length` in `[1, 24]` the loop over the
fixed `1000 x 1000*phi` working rectangle performs at most `L`
iterations, each completed iteration produces exactly one 32-segment
arc, the arcs follow the 4-phase left/top/right/bottom rotation
(`phase i = i % 4`), the loop runs exactly until the first iteration
whose remaining width or height is below 1 (all completed iterations
start with both dimensions at least 1, and an early stop happens only
at a state violating that), one boundary segment per iteration is
produced exactly when `show_segments` is on, and for `L = 8` exactly
8 arcs are produced. -/
theorem golden_spiral_spec (L : ℕ) (hL : 1 ≤ L ∧ L ≤ 24) (showSegs : Bool) :
    (spiralRun L showSegs).1.length ≤ L ∧
    (∀ k < (spiralRun L showSegs).1.length,
      1 ≤ (spiralStateSeq k).lw ∧ 1 ≤ (spiralStateSeq k).lh) ∧
    ((spiralRun L showSegs).1.length < L →
      (spiralStateSeq (spiralRun L showSegs).1.length).lw < 1 ∨
      (spiralStateSeq (spiralRun L showSegs).1.length).lh < 1) ∧
    (∀ a ∈ (spiralRun L showSegs).1, a.segs = 32) ∧
    (spiralRun L showSegs).1.map SpiralArc.phase =
      (List.range (spiralRun L showSegs).1.length).map (fun i => i % 4) ∧
    (spiralRun L showSegs).2.length =
      (if showSegs then (spiralRun L showSegs).1.length else 0) ∧
    (L = 8 → (spiralRun L showSegs).1.length = 8) := by
  refine ⟨spiralGo_length_le showSegs L 0 spiralStart, ?_, ?_,
    spiralGo_segs showSegs L 0 spiralStart, ?_,
    spiralGo_rects showSegs L 0 spiralStart, ?_⟩
  · intro k hk
    have h2 := spiralGo_good showSegs L 0 spiralStart k hk
    push_neg at h2
    exact ⟨h2.1, h2.2⟩
  · intro hlt
    exact spiralGo_stop showSegs L 0 spiralStart hlt
  · have h2 := spiralGo_phases showSegs L 0 spiralStart
    simpa using h2
  · rintro rfl
    cases showSegs <;>
      norm_num [spiralRun, spiralGo, spiralCarve, spiralStart, gen_w, gen_h, phi]

/-- Witness for C3: at `golden_spiral_length = 8` with segments shown,
the run yields exactly 8 arcs and 8 boundary segments. -/
theorem golden_spiral_spec_witness :
    (spiralRun 8 true).1.length = 8 ∧ (spiralRun 8 true).2.length = 8 := by
  have h := golden_spiral_spec 8 ⟨by norm_num, by norm_num⟩ true
  have hlen := h.2.2.2.2.2.2 rfl
  refine ⟨hlen, ?_⟩
  simpa [hlen] using h.2.2.2.2.2.1

/-! ## Theorems for C4: toggle-all round trip -/

/-- C4: from any settings state with at least one visibility toggle on,
the first toggle-all execution turns every toggle off and records the
comma-joined names of the previously-on toggles into the scratch
string, and the second execution restores from that string exactly the
visibility-toggle subset of the original state. -/
theorem toggle_all_roundtrip (s : ToggleState) (h : ∃ p, s.toggles p = true) :
    (∀ q, (toggle_all_guides s).toggles q = false) ∧
    (toggle_all_guides s).stored =
      commaJoin ((guide_props.filter fun p => s.toggles p).map gpropName) ∧
    ∀ q, (toggle_all_guides (toggle_all_guides s)).toggles q = s.toggles q := by
  obtain ⟨p0, hp0⟩ := h
  have hany : guide_props.any s.toggles = true :=
    List.any_eq_true.mpr ⟨p0, gprop_mem p0, hp0⟩
  have hnames : (collectOff guide_props s).1 =
      (guide_props.filter fun p => s.toggles p).map gpropName :=
    collectOff_names _ _ gprop_nodup
  have s1def : toggle_all_guides s =
      { (collectOff guide_props s).2 with
        stored := commaJoin ((collectOff guide_props s).1) } := by
    simp [toggle_all_guides, hany]
  have hs1tog : ∀ q, (toggle_all_guides s).toggles q = false := by
    intro q
    rw [s1def]
    show (collectOff guide_props s).2.toggles q = false
    rw [collectOff_toggles]
    simp [gprop_mem q]
  have hs1stored : (toggle_all_guides s).stored =
      commaJoin (((guide_props.filter fun p => s.toggles p)).map gpropName) := by
    rw [s1def]
    show commaJoin ((collectOff guide_props s).1) = _
    rw [hnames]
  refine ⟨hs1tog, hs1stored, ?_⟩
  have hany2 : ¬ (guide_props.any (toggle_all_guides s).toggles = true) := by
    rw [List.any_eq_true]
    rintro ⟨x, _, hx⟩
    rw [hs1tog x] at hx
    exact absurd hx (by simp)
  have hactne : (guide_props.filter fun p => s.toggles p) ≠ [] := by
    intro he
    have hmem : p0 ∈ guide_props.filter fun p => s.toggles p :=
      List.mem_filter.mpr ⟨gprop_mem p0, hp0⟩
    rw [he] at hmem
    exact absurd hmem (List.not_mem_nil p0)
  have hnsne : ((guide_props.filter fun p => s.toggles p)).map gpropName ≠ [] := by
    simp [hactne]
  have hstored_ne : (toggle_all_guides s).stored ≠ [] := by
    rw [hs1stored]
    cases hml : ((guide_props.filter fun p => s.toggles p)).map gpropName with
    | nil => exact absurd hml hnsne
    | cons n rest =>
      cases rest with
      | nil =>
        simp only [commaJoin]
        have hn : n ∈ ((guide_props.filter fun p => s.toggles p)).map gpropName := by
          rw [hml]
          exact List.mem_cons_self n []
        obtain ⟨p, _, rfl⟩ := List.mem_map.mp hn
        exact gprop_nonempty p
      | cons m rest2 =>
        simp only [commaJoin]
        intro he
        exact absurd he (by simp)
  have hsplit : commaSplit (toggle_all_guides s).stored =
      ((guide_props.filter fun p => s.toggles p)).map gpropName := by
    rw [hs1stored]
    refine commaSplit_commaJoin _ hnsne ?_
    intro n hn
    obtain ⟨p, _, rfl⟩ := List.mem_map.mp hn
    exact gprop_no_comma p
  have hfilter_all : (commaSplit (toggle_all_guides s).stored).filter
      (fun nm => (findGProp nm).isSome) =
      commaSplit (toggle_all_guides s).stored := by
    apply List.filter_eq_self.mpr
    intro nm hnm
    rw [hsplit] at hnm
    obtain ⟨p, _, rfl⟩ := List.mem_map.mp hnm
    rw [findGProp_name p]
    rfl
  have hcount : ¬ (((commaSplit (toggle_all_guides s).stored).filter
      fun nm => (findGProp nm).isSome).length = 0) := by
    rw [hfilter_all, hsplit]
    intro hlen
    exact hnsne (List.length_eq_zero.mp hlen)
  have h2def : toggle_all_guides (toggle_all_guides s) =
      restoreLoop (commaSplit (toggle_all_guides s).stored) (toggle_all_guides s) := by
    rw [toggle_all_guides]
    rw [if_neg hany2, if_pos hstored_ne, if_neg hcount]
  intro q
  rw [h2def]
  rw [Bool.eq_iff_iff, restoreLoop_toggles, hsplit]
  constructor
  · rintro (hq | ⟨nm, hnm, hfnm⟩)
    · rw [hs1tog q] at hq
      exact absurd hq (by simp)
    · obtain ⟨p, hp, rfl⟩ := List.mem_map.mp hnm
      rw [findGProp_name p] at hfnm
      have hpq : p = q := by injection hfnm
      subst hpq
      exact (List.mem_filter.mp hp).2
  · intro hq
    refine Or.inr ⟨gpropName q, ?_, findGProp_name q⟩
    exact List.mem_map_of_mem gpropName (List.mem_filter.mpr ⟨gprop_mem q, hq⟩)

/-- Witness for C4: the spec's example state (exactly `show_thirds` and
`show_grid` on) is restored exactly by two toggle-all executions. -/
theorem toggle_all_roundtrip_witness :
    (toggle_all_guides (toggle_all_guides exampleToggles)).toggles GProp.thirds =
      exampleToggles.toggles GProp.thirds ∧
    (toggle_all_guides (toggle_all_guides exampleToggles)).toggles GProp.grid =
      exampleToggles.toggles GProp.grid ∧
    (toggle_all_guides (toggle_all_guides exampleToggles)).toggles GProp.golden =
      exampleToggles.toggles GProp.golden :=
  ⟨(toggle_all_roundtrip exampleToggles ⟨GProp.thirds, by decide⟩).2.2 GProp.thirds,
   (toggle_all_roundtrip exampleToggles ⟨GProp.thirds, by decide⟩).2.2 GProp.grid,
   (toggle_all_roundtrip exampleToggles ⟨GProp.thirds, by decide⟩).2.2 GProp.golden⟩

/-! ## Theorems for C5 and C10: preset frame effects -/

/-- C5: `dict_to_settings` mutates only attributes whose keys occur in
the loaded data (and only those in the allow-list); every other
attribute keeps its prior value; in particular loading
`show_center = true` alone onto a state with `show_thirds` true leaves
`show_thirds` true while setting `show_center` true. -/
theorem dict_to_settings_frame_effect :
    (∀ (data : List (String × PValue)) (st : SettingsMap) (nm : String),
      (∀ kv ∈ data, kv.1 ≠ nm) → dict_to_settings data st nm = st nm) ∧
    (∀ (data : List (String × PValue)) (st : SettingsMap) (nm : String),
      nm ∉ PRESET_PROPERTIES → dict_to_settings data st nm = st nm) ∧
    dict_to_settings [("show_center", PValue.pBool true)] presetExampleSettings
      "show_thirds" = some (PValue.pBool true) ∧
    dict_to_settings [("show_center", PValue.pBool true)] presetExampleSettings
      "show_center" = some (PValue.pBool true) := by
  refine ⟨?_, ?_, ?_, ?_⟩
  · intro data st nm h
    exact dict_to_settings_absent_key nm data st h
  · intro data st nm h
    exact dict_to_settings_untracked_key nm h data st
  · decide
  · decide

/-- Witness for C5: the absent-key clause applied at the concrete
example load. -/
theorem dict_to_settings_frame_effect_witness :
    dict_to_settings [("show_center", PValue.pBool true)] presetExampleSettings
      "show_thirds" = presetExampleSettings "show_thirds" :=
  dict_to_settings_frame_effect.1 [("show_center", PValue.pBool true)]
    presetExampleSettings "show_thirds" (by decide)

/-- C10: the allow-list entry `golden_triangle_fit` matches no settings
attribute (so it is skipped by Save, which only emits attributes the
object has, and by Load, which requires the attribute to exist); the
seven untracked fields exist on the settings object but are outside
the allow-list, so Save never serializes them and Load never mutates
them (they keep their pre-load values after any load). -/
theorem preset_allowlist_spec :
    ("golden_triangle_fit" ∈ PRESET_PROPERTIES ∧
      "golden_triangle_fit" ∉ vseSettingsAttrs) ∧
    (∀ nm ∈ untrackedSettingsFields,
      nm ∈ vseSettingsAttrs ∧ nm ∉ PRESET_PROPERTIES) ∧
    (∀ st : SettingsMap, (∀ n, (st n).isSome ↔ n ∈ vseSettingsAttrs) →
      (∀ kv ∈ settings_to_dict st,
        kv.1 ∈ PRESET_PROPERTIES ∧ kv.1 ≠ "golden_triangle_fit" ∧
          kv.1 ∉ untrackedSettingsFields) ∧
      (∀ (data : List (String × PValue)), ∀ nm ∈ untrackedSettingsFields,
        dict_to_settings data st nm = st nm)) := by
  refine ⟨by decide, by decide, ?_⟩
  intro st hst
  constructor
  · intro kv hkv
    rw [settings_to_dict, List.mem_filterMap] at hkv
    obtain ⟨nm, hnm, hmap⟩ := hkv
    rw [Option.map_eq_some'] at hmap
    obtain ⟨v, hv, rfl⟩ := hmap
    refine ⟨hnm, ?_, ?_⟩
    · intro hfit
      have hsome : (st "golden_triangle_fit").isSome := by rw [← hfit, hv]; rfl
      have hmem := (hst "golden_triangle_fit").mp hsome
      revert hmem
      decide
    · intro hmem
      have huntr : ∀ x ∈ untrackedSettingsFields, x ∉ PRESET_PROPERTIES := by decide
      exact huntr _ hmem hnm
  · intro data nm hnm
    have huntr : ∀ x ∈ untrackedSettingsFields, x ∉ PRESET_PROPERTIES := by decide
    exact dict_to_settings_untracked_key nm (huntr nm hnm) data st

/-- Witness for C10: even a load whose data explicitly contains
`golden_triangle_scale` leaves that field untouched on a fully
populated settings object. -/
theorem preset_allowlist_spec_witness :
    dict_to_settings [("golden_triangle_scale", PValue.pNum 2)] vseDefaultSettings
      "golden_triangle_scale" = vseDefaultSettings "golden_triangle_scale" :=
  ((preset_allowlist_spec.2.2 vseDefaultSettings
      (fun n => by by_cases h : n ∈ vseSettingsAttrs <;> simp [vseDefaultSettings, h])).2
    [("golden_triangle_scale", PValue.pNum 2)] "golden_triangle_scale" (by decide))

/-! ## Theorem for C9: malformed guide data never wipes the collection -/

/-- C9: writing `custom_guides_data` with an empty string or with a
string the JSON parser rejects makes `deserialize_guides` return before
clearing, leaving the owner's guide-line collection completely
unchanged. -/
theorem deserialize_guides_invalid_noop
    (parse : String → Option (List GuideRecord)) (col : List GuideLine)
    (value : String) (h : value = "" ∨ parse value = none) :
    deserialize_guides parse col value = col := by
  rcases h with h | h
  · simp [deserialize_guides, h]
  · by_cases hv : value = ""
    · simp [deserialize_guides, hv]
    · simp [deserialize_guides, hv, h]

/-- Witness for C9: a parser that rejects the blob leaves a concrete
one-line collection intact. -/
theorem deserialize_guides_invalid_noop_witness :
    deserialize_guides (fun _ => none)
      [⟨"Guide", 0, 0, 0, "HORIZONTAL", [0, 2/5, 1, 1/2]⟩] "not json" =
      [⟨"Guide", 0, 0, 0, "HORIZONTAL", [0, 2/5, 1, 1/2]⟩] :=
  deserialize_guides_invalid_noop (fun _ => none)
    [⟨"Guide", 0, 0, 0, "HORIZONTAL", [0, 2/5, 1, 1/2]⟩] "not json" (Or.inr rfl)

/-! ## Theorem for C6: export rasterizer vs live overlay, diagonal method -/

/-- C6 (code bug): with `diagonal_method_angle = 30` degrees on a
100 by 100 frame at full resolution, the live overlay's first
diagonal-method segment ends at `(200*cos 30deg, 200*sin 30deg) =
(100*sqrt 3, 100)` while the export rasterizer's ends at `(100, 100)`:
the export path ignores the configured angle (and uses extent
`min(w,h)` instead of `2*max(w,h)`), so the two paths do not generate
the same line-segment geometry. -/
theorem diagonal_method_export_mismatch :
    diagonalMethodLive 0 0 100 100 30 ≠ diagonalMethodExport 100 100 := by
  intro h
  have hang : (30 : ℝ) * (Real.pi / 180) = Real.pi / 6 := by ring
  have hc : Real.cos ((30 : ℝ) * (Real.pi / 180)) = Real.sqrt 3 / 2 := by
    rw [hang, Real.cos_pi_div_six]
  simp only [diagonalMethodLive, diagonalMethodExport, max_self, min_self,
    List.cons.injEq, Prod.mk.injEq] at h
  have h100 : (0 : ℝ) + 100 * 2 * Real.cos ((30 : ℝ) * (Real.pi / 180)) = 100 :=
    h.1.2.1
  rw [hc] at h100
  have hs : Real.sqrt 3 = 1 := by linarith
  have h3 : Real.sqrt 3 < Real.sqrt 3 := by
    calc Real.sqrt 3 = 1 := hs
    _ = Real.sqrt 1 := by simp
    _ < Real.sqrt 3 := Real.sqrt_lt_sqrt (by norm_num) (by norm_num)
  exact absurd h3 (lt_irrefl _)

/-! ## Theorem for C7: invoke-time frame rect vs rendering frame rect -/

/-- C7 (code bug): with render resolution 100 by 100, pixel aspect
ratio 2:1 and the identity pan/zoom transform, the rendering entry
point computes the frame rectangle `(-100, -50, 200, 100)` (width
corrected by the pixel aspect ratio) while the drag-move operator's
invoke-time hit-test frame is `(-50, -50, 100, 100)` (no aspect
correction), so the hit-test geometry does not coincide with the
rendered guide positions. -/
theorem move_guide_invoke_frame_mismatch :
    get_frame_coordinates 100 100 2 1 500 500 idView = (-100, -50, 200, 100) ∧
    moveGuideInvokeFrame 100 100 idView = some (-50, -50, 100, 100) ∧
    moveGuideInvokeFrame 100 100 idView ≠
      some (get_frame_coordinates 100 100 2 1 500 500 idView) := by
  refine ⟨?_, ?_, ?_⟩
  · norm_num [get_frame_coordinates, viewToRegion, idView]
  · norm_num [moveGuideInvokeFrame, viewToRegion, idView]
  · norm_num [get_frame_coordinates, moveGuideInvokeFrame, viewToRegion, idView]

/-! ## Theorems for C8: ruler tick interval selection -/

/-- Counterexample for C8: at `pixels_per_unit = 1/1000` (a positive
value) no candidate interval reaches the 80 px target spacing, yet the
code keeps the pre-loop default 100 — so the chosen interval is not
an element whose on-screen spacing is at least 80 px, refuting the
claim as universally stated. -/
theorem majorIntervalUnits_counterexample :
    (0 : ℚ) < 1 / 1000 ∧
    majorIntervalUnits (1 / 1000) = 100 ∧
    ∀ i ∈ possible_intervals, ¬ target_spacing_px ≤ (i : ℚ) * (1 / 1000) := by
  refine ⟨by norm_num, ?_, ?_⟩
  · norm_num [majorIntervalUnits, pickIntervalLoop, possible_intervals,
      target_spacing_px]
  · intro i hi
    fin_cases hi <;> norm_num [target_spacing_px]

/-- C8 (amended): whenever at least one candidate interval reaches the
80 px target spacing, the chosen major tick interval is the smallest
such candidate; when no candidate reaches it, the pre-loop default 100
is kept; in particular for `pixels_per_unit = 1/2` the chosen interval
is 200. -/
theorem majorIntervalUnits_spec (ppu : ℚ) (h_ppu : 0 < ppu) :
    ((∃ i ∈ possible_intervals, target_spacing_px ≤ (i : ℚ) * ppu) →
      majorIntervalUnits ppu ∈ possible_intervals ∧
      target_spacing_px ≤ (majorIntervalUnits ppu : ℚ) * ppu ∧
      ∀ j ∈ possible_intervals, target_spacing_px ≤ (j : ℚ) * ppu →
        majorIntervalUnits ppu ≤ j) ∧
    ((∀ i ∈ possible_intervals, ¬ target_spacing_px ≤ (i : ℚ) * ppu) →
      majorIntervalUnits ppu = 100) ∧
    majorIntervalUnits (1 / 2) = 200 := by
  refine ⟨?_, ?_, ?_⟩
  · intro hex
    exact pickIntervalLoop_min ppu possible_intervals
      (by norm_num [possible_intervals, List.sorted_cons]) hex
  · intro hall
    exact pickIntervalLoop_default ppu possible_intervals hall
  · norm_num [majorIntervalUnits, pickIntervalLoop, possible_intervals,
      target_spacing_px]

/-- Witness for C8 (amended): at `pixels_per_unit = 1/2` the hypotheses
hold and the chosen interval, 200, is the smallest candidate whose
spacing reaches 80 px. -/
theorem majorIntervalUnits_spec_witness :
    majorIntervalUnits (1 / 2) ∈ possible_intervals ∧
    target_spacing_px ≤ (majorIntervalUnits (1 / 2) : ℚ) * (1 / 2) ∧
    ∀ j ∈ possible_intervals, target_spacing_px ≤ (j : ℚ) * (1 / 2) →
      majorIntervalUnits (1 / 2) ≤ j :=
  (majorIntervalUnits_spec (1 / 2) (by norm_num)).1
    ⟨200, by norm_num [possible_intervals], by norm_num [target_spacing_px]⟩

end BGuides

